import Mathlib

/-!
Verification of the Ready-to-Reform feature-engineering and scoring engine
(src/config.py, src/features.py, src/scoring.py).

Modelling conventions:
- Timestamps are rationals measured in days (the source works with datetimes
  and converts differences to days via total_seconds()/86400, and builds
  window cutoffs with timedelta(days=w); timedelta(hours=h) is h/24 days).
- Python floats are modelled as rationals; the Python built-in round(x, 2)
  is round half to even applied to 100*x, divided by 100; the Python min
  and max are modelled by if-based qmin and qmax on rationals.
- A DataFrame of events for one user is a list of Event records; the derived
  category column (extracted from the event_props JSON, degrading to null on
  malformed data) is modelled as an Option String field.
- The pandas str.lower over the ASCII category names used here is modelled
  by mapping Char.toLower over the characters of the string.
- Python dicts with string keys appear as association lists kept in
  insertion order; sorted(..., reverse=True) is a stable descending sort,
  modelled by insertion sort with the large-or-equal relation on values.
-/

/-- Python max on two rationals. -/
def qmax (a b : ℚ) : ℚ := if a ≤ b then b else a

/-- Python min on two rationals. -/
def qmin (a b : ℚ) : ℚ := if a ≤ b then a else b

/-- Lower-case a string character by character (pandas str.lower on the
ASCII category names appearing in this data model). -/
def str_lower (s : String) : String := String.mk (s.data.map Char.toLower)

/-- Event record: one row of the events DataFrame, after the category
column has been extracted from event_props (features.py lines 50-56). -/
structure Event where
  event_time : ℚ
  event_name : String
  category : Option String
deriving DecidableEq

/-- FeatureConfig from config.py: windows (days), high-intent event names,
reform bundle category patterns, cart abandonment window (hours). -/
structure FeatureConfig where
  window_7d : ℚ
  window_14d : ℚ
  window_30d : ℚ
  high_intent_events : List String
  reform_bundles : List (List String)
  cart_abandon_hours : ℚ
deriving DecidableEq

/-- Default FeatureConfig instance (config.py lines 27-55). -/
def FEATURE_CONFIG : FeatureConfig :=
  { window_7d := 7
    window_14d := 14
    window_30d := 30
    high_intent_events :=
      ["submit_quote", "whatsapp_quote_request", "scan_qr_service",
       "talk_to_consultant", "begin_checkout"]
    reform_bundles :=
      [["piso", "rodape"], ["tinta", "massa", "lixa"], ["azulejo", "rejunte"],
       ["porta", "fechadura"], ["janela", "persiana"]]
    cart_abandon_hours := 24 }

/-- ScoringConfig from config.py: five component weights, two classification
thresholds, maximum score. -/
structure ScoringConfig where
  weight_recency : ℚ
  weight_high_intent : ℚ
  weight_frequency : ℚ
  weight_diversity : ℚ
  weight_bundles : ℚ
  threshold_ideal : ℚ
  threshold_nurture : ℚ
  max_score : ℚ
deriving DecidableEq

/-- Default ScoringConfig instance (config.py lines 58-74). -/
def SCORING_CONFIG : ScoringConfig :=
  { weight_recency := 3/10
    weight_high_intent := 1/4
    weight_frequency := 1/5
    weight_diversity := 3/20
    weight_bundles := 1/10
    threshold_ideal := 70
    threshold_nurture := 40
    max_score := 100 }

/-- Constructing a ScoringConfig runs the post-init validation of
config.py lines 76-82: the five weights must sum to 1.0 within 0.001,
otherwise a ValueError is raised and no object exists.  Modelled as an
Except value: error on invalid weights, a fully built record otherwise. -/
def mkScoringConfig (wr wh wf wd wb ti tn ms : ℚ) : Except String ScoringConfig :=
  if 1/1000 < |wr + wh + wf + wd + wb - 1| then
    Except.error "Weights must sum to 1.0"
  else
    Except.ok
      { weight_recency := wr
        weight_high_intent := wh
        weight_frequency := wf
        weight_diversity := wd
        weight_bundles := wb
        threshold_ideal := ti
        threshold_nurture := tn
        max_score := ms }

/-- Events of one user at or after the window cutoff reference - w days
(the recent_events filter repeated in each feature of features.py;
note the source puts no upper bound at the reference date). -/
def recent_events (ue : List Event) (reference_date w : ℚ) : List Event :=
  ue.filter fun e => decide (reference_date - w ≤ e.event_time)

/-- Recency feature (features.py lines 129-149): 999 for a user with no
events, otherwise max(0, days from the latest event to the reference). -/
def calculate_recency (ue : List Event) (reference_date : ℚ) : ℚ :=
  match ue with
  | [] => 999
  | e :: es =>
      qmax 0 (reference_date - es.foldl (fun m x => qmax m x.event_time) e.event_time)

/-- Frequency feature (features.py lines 151-170): number of events whose
timestamp is at or after reference - window_days. -/
def calculate_frequency (ue : List Event) (reference_date w : ℚ) : ℕ :=
  (recent_events ue reference_date w).length

/-- High-intent feature (features.py lines 172-196): events in the window
whose name is in the configured high-intent set. -/
def calculate_high_intent (cfg : FeatureConfig) (ue : List Event)
    (reference_date w : ℚ) : ℕ :=
  ((recent_events ue reference_date w).filter fun e =>
    decide (e.event_name ∈ cfg.high_intent_events)).length

/-- Category diversity feature (features.py lines 198-219): number of
distinct non-null categories in the window (case-sensitive). -/
def calculate_category_diversity (ue : List Event) (reference_date w : ℚ) : ℕ :=
  (((recent_events ue reference_date w).filterMap Event.category).dedup).length

/-- Cart abandonment feature (features.py lines 221-261): for each
add_to_cart event in the window, count it when no begin_checkout event in
the window lies in [add_time, add_time + cart_abandon_hours]; hours are
converted to days.  Checkouts are not consumed: one checkout can cover
any number of cart adds. -/
def calculate_cart_abandon (cfg : FeatureConfig) (ue : List Event)
    (reference_date w : ℚ) : ℕ :=
  let recent := recent_events ue reference_date w
  let cart_adds := recent.filter fun e => decide (e.event_name = "add_to_cart")
  cart_adds.countP fun a =>
    decide ((recent.filter fun e =>
      decide (e.event_name = "begin_checkout" ∧
        a.event_time ≤ e.event_time ∧
        e.event_time ≤ a.event_time + cfg.cart_abandon_hours / 24)).length = 0)

/-- Lower-cased distinct categories in the window (features.py line 284). -/
def lower_categories (ue : List Event) (reference_date w : ℚ) : List String :=
  (((recent_events ue reference_date w).filterMap Event.category).map
    str_lower).dedup

/-- Bundle check on a category set (features.py lines 287-292): 1 when some
configured bundle pattern is a subset of the categories, else 0. -/
def bundle_from_categories (cfg : FeatureConfig) (categories : List String) : ℕ :=
  if cfg.reform_bundles.any (fun bundle =>
      bundle.all fun c => decide (c ∈ categories)) then 1 else 0

/-- Reform bundle feature (features.py lines 263-292). -/
def calculate_reform_bundle (cfg : FeatureConfig) (ue : List Event)
    (reference_date w : ℚ) : ℕ :=
  bundle_from_categories cfg (lower_categories ue reference_date w)

/-- FeatureVector produced per user: every field is always set. -/
structure Features where
  recency_days : ℚ
  freq_7d : ℕ
  freq_14d : ℕ
  freq_30d : ℕ
  high_intent_7d : ℕ
  category_diversity_14d : ℕ
  cart_abandon_7d : ℕ
  reform_bundle_14d : ℕ
deriving DecidableEq

/-- Per-user feature computation (features.py lines 76-127). -/
def calculate_user_features (cfg : FeatureConfig) (ue : List Event)
    (reference_date : ℚ) : Features :=
  { recency_days := calculate_recency ue reference_date
    freq_7d := calculate_frequency ue reference_date cfg.window_7d
    freq_14d := calculate_frequency ue reference_date cfg.window_14d
    freq_30d := calculate_frequency ue reference_date cfg.window_30d
    high_intent_7d := calculate_high_intent cfg ue reference_date cfg.window_7d
    category_diversity_14d :=
      calculate_category_diversity ue reference_date cfg.window_14d
    cart_abandon_7d := calculate_cart_abandon cfg ue reference_date cfg.window_7d
    reform_bundle_14d := calculate_reform_bundle cfg ue reference_date cfg.window_14d }

/-- Round half to even to an integer, as the Python built-in round does. -/
def round_half_even (q : ℚ) : ℤ :=
  if q - ⌊q⌋ < 1/2 then ⌊q⌋
  else if 1/2 < q - ⌊q⌋ then ⌊q⌋ + 1
  else if ⌊q⌋ % 2 = 0 then ⌊q⌋ else ⌊q⌋ + 1

/-- Python round(q, 2): round half to even at two decimal places. -/
def round2 (q : ℚ) : ℚ :=
  (round_half_even (100 * q) : ℚ) / 100

/-- Recency sub-score (scoring.py lines 79-86): 0 at 30 days or more, 100 at
one day or less, linear decay in between. -/
def recency_score (recency_days : ℚ) : ℚ :=
  if 30 ≤ recency_days then 0
  else if recency_days ≤ 1 then 100
  else 100 * (1 - (recency_days - 1) / 29)

/-- The five weighted score components in insertion order
(scoring.py lines 75-124): each entry is sub-score times weight. -/
def score_components (cfg : ScoringConfig) (f : Features) : List (String × ℚ) :=
  [("recency", recency_score f.recency_days * cfg.weight_recency),
   ("high_intent",
     qmin 100 ((f.high_intent_7d : ℚ) * 25) * cfg.weight_high_intent),
   ("frequency",
     qmin 100 ((1/2 * (f.freq_7d : ℚ) + 3/10 * (f.freq_14d : ℚ)
       + 1/5 * (f.freq_30d : ℚ)) * 5) * cfg.weight_frequency),
   ("diversity",
     qmin 100 ((f.category_diversity_14d : ℚ) * 20) * cfg.weight_diversity),
   ("bundles_abandon",
     qmin 100 ((if 0 < f.reform_bundle_14d then 70 else 0)
       + (if 0 < f.cart_abandon_7d
          then qmin 30 ((f.cart_abandon_7d : ℚ) * 15) else 0))
       * cfg.weight_bundles)]

/-- Per-user score (scoring.py lines 62-130): sum the weighted components,
clamp into [0, max_score], round to 2 decimals; also return the components. -/
def calculate_user_score (cfg : ScoringConfig) (f : Features) :
    ℚ × List (String × ℚ) :=
  let components := score_components cfg f
  let total := (components.map Prod.snd).sum
  (round2 (qmin cfg.max_score (qmax 0 total)), components)

/-- Classification (scoring.py lines 132-147). -/
def classify_score (cfg : ScoringConfig) (score : ℚ) : String :=
  if cfg.threshold_ideal ≤ score then "MOMENTO IDEAL"
  else if cfg.threshold_nurture ≤ score then "NUTRIR"
  else "NÃO ABORDAR"

/-- Descending order on component values; Python sorted with reverse=True is
a stable sort for this relation. -/
def value_desc (a b : String × ℚ) : Prop := b.2 ≤ a.2

instance : DecidableRel value_desc := fun a b =>
  inferInstanceAs (Decidable (b.2 ≤ a.2))

/-- Top drivers (scoring.py lines 149-177): stable descending sort of the
components by value, take the first three, round the values. -/
def get_top_drivers (components : List (String × ℚ)) : List (String × ℚ) :=
  ((components.insertionSort value_desc).take 3).map fun p => (p.1, round2 p.2)

/-- Full per-user pipeline: features then score, as run_daily_score composes
FeatureEngineer.calculate_features with ReadyToReformScorer.calculate_scores. -/
def score_user (fcfg : FeatureConfig) (scfg : ScoringConfig)
    (ue : List Event) (reference_date : ℚ) : ℚ :=
  (calculate_user_score scfg (calculate_user_features fcfg ue reference_date)).1

/-- Tier order of the three classification labels, for stating that
classification is monotone in the score. -/
def tier_rank (label : String) : ℕ :=
  if label = "MOMENTO IDEAL" then 2 else if label = "NUTRIR" then 1 else 0

/-- The single event of the C1 scenario: submit_quote 12 hours before the
reference time 100 (days), category piso. -/
def ev_c1 : Event := ⟨199/2, "submit_quote", some "piso"⟩

lemma recent_ev_c1 (w : ℚ) (hw : 1/2 ≤ w) :
    recent_events [ev_c1] 100 w = [ev_c1] := by
  simp [recent_events, List.filter_cons, ev_c1]
  linarith

lemma features_ev_c1 :
    calculate_user_features FEATURE_CONFIG [ev_c1] 100 =
      ⟨1/2, 1, 1, 1, 1, 1, 0, 0⟩ := by
  simp only [calculate_user_features, FEATURE_CONFIG, Features.mk.injEq]
  refine ⟨?_, ?_, ?_, ?_, ?_, ?_, ?_, ?_⟩
  · norm_num [calculate_recency, ev_c1, qmax]
  · simp only [calculate_frequency, recent_ev_c1 7 (by norm_num)]; rfl
  · simp only [calculate_frequency, recent_ev_c1 14 (by norm_num)]; rfl
  · simp only [calculate_frequency, recent_ev_c1 30 (by norm_num)]; rfl
  · simp only [calculate_high_intent, recent_ev_c1 7 (by norm_num)]; decide
  · simp only [calculate_category_diversity, recent_ev_c1 14 (by norm_num)]; decide
  · simp only [calculate_cart_abandon, recent_ev_c1 7 (by norm_num)]; decide
  · simp only [calculate_reform_bundle, lower_categories,
      recent_ev_c1 14 (by norm_num)]
    decide

lemma score_ev_c1 :
    score_user FEATURE_CONFIG SCORING_CONFIG [ev_c1] 100 = 161/4 := by
  simp only [score_user, features_ev_c1]
  norm_num [calculate_user_score, score_components, SCORING_CONFIG,
    recency_score, qmin, qmax, round2, round_half_even]

/-- C1 counterexample: for the single submit_quote event 12 hours before the
reference with category piso, the code does not produce total score 39.75,
and the tier is not "NÃO ABORDAR".  The frequency sub-score is
min(100, (0.5×1 + 0.3×1 + 0.2×1)×5) = 5, contributing 1.0, not 0.5. -/
theorem c1_counterexample :
    score_user FEATURE_CONFIG SCORING_CONFIG [ev_c1] 100 ≠ 159/4 ∧
    classify_score SCORING_CONFIG
      (score_user FEATURE_CONFIG SCORING_CONFIG [ev_c1] 100) ≠ "NÃO ABORDAR" := by
  rw [score_ev_c1]
  constructor
  · norm_num
  · norm_num [classify_score, SCORING_CONFIG]
    decide

/-- C1 amended: the scenario yields recency_days = 0.5, all frequencies 1,
high_intent_7d = 1, diversity 1, no bundle, no abandonment, and under the
default configuration the total score is
0.30×100 + 0.25×25 + 0.20×min(100, (0.5×1 + 0.3×1 + 0.2×1)×5) + 0.15×20 + 0.10×0
= 30 + 6.25 + 1 + 3 + 0 = 40.25, hence tier "NUTRIR" (at least 40). -/
theorem c1_amended :
    calculate_user_features FEATURE_CONFIG [ev_c1] 100 =
      ⟨1/2, 1, 1, 1, 1, 1, 0, 0⟩ ∧
    score_user FEATURE_CONFIG SCORING_CONFIG [ev_c1] 100 = 161/4 ∧
    classify_score SCORING_CONFIG
      (score_user FEATURE_CONFIG SCORING_CONFIG [ev_c1] 100) = "NUTRIR" := by
  refine ⟨features_ev_c1, score_ev_c1, ?_⟩
  rw [score_ev_c1]
  norm_num [classify_score, SCORING_CONFIG]

/-- C3: constructing a ScoringConfig with weights whose sum differs from 1
by more than 0.001 always yields the validation error (and no partially
constructed configuration), while any weights within the tolerance yield
the fully constructed configuration. -/
theorem c3_weights_validation (wr wh wf wd wb ti tn ms : ℚ) :
    (1/1000 < |wr + wh + wf + wd + wb - 1| →
      mkScoringConfig wr wh wf wd wb ti tn ms =
        Except.error "Weights must sum to 1.0") ∧
    (|wr + wh + wf + wd + wb - 1| ≤ 1/1000 →
      mkScoringConfig wr wh wf wd wb ti tn ms =
        Except.ok ⟨wr, wh, wf, wd, wb, ti, tn, ms⟩) := by
  constructor
  · intro h
    rw [mkScoringConfig, if_pos h]
  · intro h
    rw [mkScoringConfig, if_neg (not_lt.mpr h)]

/-- C3 witness: the default weights sum to exactly 1, so construction
succeeds and yields the default configuration. -/
theorem c3_witness :
    |(3:ℚ)/10 + 1/4 + 1/5 + 3/20 + 1/10 - 1| ≤ 1/1000 ∧
    mkScoringConfig (3/10) (1/4) (1/5) (3/20) (1/10) 70 40 100 =
      Except.ok SCORING_CONFIG :=
  ⟨by norm_num,
   (c3_weights_validation (3/10) (1/4) (1/5) (3/20) (1/10) 70 40 100).2
     (by norm_num)⟩

/-- C8: classification is the pure threshold function of the score and the
two thresholds, and it is monotone: a larger score never gets a lower tier. -/
theorem c8_classification_monotone (cfg : ScoringConfig) (s1 s2 : ℚ)
    (h : s1 ≤ s2) :
    classify_score cfg s1 =
      (if cfg.threshold_ideal ≤ s1 then "MOMENTO IDEAL"
       else if cfg.threshold_nurture ≤ s1 then "NUTRIR" else "NÃO ABORDAR") ∧
    tier_rank (classify_score cfg s1) ≤ tier_rank (classify_score cfg s2) := by
  refine ⟨rfl, ?_⟩
  by_cases h1 : cfg.threshold_ideal ≤ s1
  · have h2 : cfg.threshold_ideal ≤ s2 := le_trans h1 h
    simp [classify_score, h1, h2]
  · by_cases h3 : cfg.threshold_nurture ≤ s1
    · have h4 : cfg.threshold_nurture ≤ s2 := le_trans h3 h
      by_cases h5 : cfg.threshold_ideal ≤ s2 <;>
        simp [classify_score, h1, h3, h4, h5, tier_rank]
    · simp only [classify_score, if_neg h1, if_neg h3]
      have : tier_rank "NÃO ABORDAR" = 0 := by simp [tier_rank]
      rw [this]
      exact Nat.zero_le _

/-- C8 witness: instantiated at the default thresholds with scores 10 and 50. -/
theorem c8_witness :
    (10:ℚ) ≤ 50 ∧
    tier_rank (classify_score SCORING_CONFIG 10) ≤
      tier_rank (classify_score SCORING_CONFIG 50) :=
  ⟨by norm_num, (c8_classification_monotone SCORING_CONFIG 10 50 (by norm_num)).2⟩

/-- C5: the recency sub-score is the stated piecewise-linear function and is
monotonically non-increasing over non-negative recency values. -/
theorem c5_recency_piecewise (d e : ℚ) (hd : 0 ≤ d) (hde : d ≤ e) :
    (d ≤ 1 → recency_score d = 100) ∧
    (30 ≤ d → recency_score d = 0) ∧
    (1 < d → d < 30 → recency_score d = 100 * (1 - (d - 1) / 29)) ∧
    recency_score e ≤ recency_score d := by
  refine ⟨?_, ?_, ?_, ?_⟩
  · intro h
    unfold recency_score
    rw [if_neg (by linarith), if_pos h]
  · intro h
    unfold recency_score
    rw [if_pos h]
  · intro h1 h2
    unfold recency_score
    rw [if_neg (by linarith), if_neg (by linarith)]
  · unfold recency_score
    split_ifs <;> linarith

/-- C5 witness: recency 0, 0.5, 2 and 35 days, exercising each branch and
the monotonicity at the pair 2 and 35. -/
theorem c5_witness :
    recency_score 0 = 100 ∧ recency_score (1/2) = 100 ∧
    recency_score 2 = 100 * (1 - (2 - 1) / 29) ∧ recency_score 35 = 0 ∧
    recency_score 35 ≤ recency_score 2 :=
  ⟨(c5_recency_piecewise 0 0 (by norm_num) (by norm_num)).1 (by norm_num),
   (c5_recency_piecewise (1/2) 1 (by norm_num) (by norm_num)).1 (by norm_num),
   (c5_recency_piecewise 2 35 (by norm_num) (by norm_num)).2.2.1
     (by norm_num) (by norm_num),
   (c5_recency_piecewise 35 35 (by norm_num) (by norm_num)).2.1 (by norm_num),
   (c5_recency_piecewise 2 35 (by norm_num) (by norm_num)).2.2.2⟩

lemma floor_le_round_half_even (q : ℚ) : ⌊q⌋ ≤ round_half_even q := by
  unfold round_half_even
  split_ifs <;> omega

lemma round_half_even_le_ceil (q : ℚ) : round_half_even q ≤ ⌈q⌉ := by
  unfold round_half_even
  split_ifs with h1 h2 h3
  · exact Int.floor_le_ceil q
  · have hlt : (⌊q⌋ : ℚ) < q := by linarith
    have := Int.lt_ceil.mpr hlt
    omega
  · exact Int.floor_le_ceil q
  · have hlt : (⌊q⌋ : ℚ) < q := by
      have : ¬(q - ⌊q⌋ < 1/2) := h1
      linarith [not_lt.mp this]
    have := Int.lt_ceil.mpr hlt
    omega

lemma round2_nonneg (q : ℚ) (h : 0 ≤ q) : 0 ≤ round2 q := by
  unfold round2
  have h1 : (0:ℤ) ≤ ⌊100 * q⌋ := Int.floor_nonneg.mpr (by positivity)
  have h2 : (0:ℤ) ≤ round_half_even (100 * q) :=
    le_trans h1 (floor_le_round_half_even (100 * q))
  have h3 : (0:ℚ) ≤ (round_half_even (100 * q) : ℚ) := by exact_mod_cast h2
  exact div_nonneg h3 (by norm_num)

lemma round2_le_nat_div (q : ℚ) (k : ℕ) (h : q ≤ k / 100) :
    round2 q ≤ k / 100 := by
  unfold round2
  have h1 : 100 * q ≤ (k:ℚ) := by linarith
  have h2 : round_half_even (100 * q) ≤ (k:ℤ) := by
    have := le_trans (round_half_even_le_ceil (100 * q)) (Int.ceil_mono h1)
    rwa [Int.ceil_natCast] at this
  have h3 : (round_half_even (100 * q) : ℚ) ≤ (k:ℚ) := by exact_mod_cast h2
  linarith

/-- A valid but adversarial configuration whose max_score 0.006 is not a
multiple of 0.01 (the weight validation does not constrain max_score). -/
def cfg_ce : ScoringConfig := ⟨3/10, 1/4, 1/5, 3/20, 1/10, 70, 40, 3/500⟩

/-- A feature vector with one high-intent event and nothing else. -/
def features_ce : Features := ⟨999, 0, 0, 0, 1, 0, 0, 0⟩

/-- C4 counterexample: with the validly constructed configuration cfg_ce
(max_score = 0.006), the clamped total 0.006 rounds to 0.01, so the final
score exceeds max_score. -/
theorem c4_counterexample :
    mkScoringConfig (3/10) (1/4) (1/5) (3/20) (1/10) 70 40 (3/500) =
      Except.ok cfg_ce ∧
    (calculate_user_score cfg_ce features_ce).1 = 1/100 ∧
    cfg_ce.max_score < (calculate_user_score cfg_ce features_ce).1 := by
  have hscore : (calculate_user_score cfg_ce features_ce).1 = 1/100 := by
    norm_num [calculate_user_score, score_components, cfg_ce, features_ce,
      recency_score, qmin, qmax, round2, round_half_even]
  refine ⟨?_, hscore, ?_⟩
  · norm_num [mkScoringConfig, cfg_ce]
  · rw [hscore]
    norm_num [cfg_ce]

/-- C4 amended: whenever max_score is a non-negative whole multiple of 0.01
(as the default 100 is), the final score lies in [0, max_score]; the clamp
is applied before rounding and rounding to 2 decimals cannot then leave the
interval.  For a max_score that is not a multiple of 0.01 the rounding can
exceed it, as the counterexample shows. -/
theorem c4_score_bounds (cfg : ScoringConfig) (f : Features) (k : ℕ)
    (hms : cfg.max_score = k / 100) :
    0 ≤ (calculate_user_score cfg f).1 ∧
    (calculate_user_score cfg f).1 ≤ cfg.max_score := by
  have hms0 : (0:ℚ) ≤ cfg.max_score := by
    rw [hms]
    positivity
  simp only [calculate_user_score]
  constructor
  · apply round2_nonneg
    unfold qmin qmax
    split_ifs <;> linarith
  · have hle : qmin cfg.max_score
        (qmax 0 ((List.map Prod.snd (score_components cfg f)).sum)) ≤ k / 100 := by
      rw [← hms]
      unfold qmin
      split_ifs with h
      · exact le_refl _
      · linarith [not_le.mp h]
    rw [hms] at hle ⊢
    exact round2_le_nat_div _ k hle

/-- C4 witness: the default configuration has max_score 100 = 10000/100, and
the bound holds there for the features_ce vector. -/
theorem c4_witness :
    SCORING_CONFIG.max_score = (10000:ℕ) / 100 ∧
    0 ≤ (calculate_user_score SCORING_CONFIG features_ce).1 ∧
    (calculate_user_score SCORING_CONFIG features_ce).1 ≤
      SCORING_CONFIG.max_score := by
  have h : SCORING_CONFIG.max_score = (10000:ℕ) / 100 := by
    norm_num [SCORING_CONFIG]
  exact ⟨h, (c4_score_bounds SCORING_CONFIG features_ce 10000 h).1,
    (c4_score_bounds SCORING_CONFIG features_ce 10000 h).2⟩

/-- Count of events in the closed interval [reference - window, reference],
following the words of the spec (spec section 4.1, Frequency); the source
filter has no upper endpoint, so the two are compared in C6. -/
def interval_count (ue : List Event) (reference_date w : ℚ) : ℕ :=
  (ue.filter fun e =>
    decide (reference_date - w ≤ e.event_time ∧
      e.event_time ≤ reference_date)).length

/-- An event 10 days after the reference time 100. -/
def ev_c6 : Event := ⟨110, "page_view", none⟩

/-- C6 counterexample: an event after the reference time is counted by the
source frequency (filter is only event_time at or above the cutoff) but not
by the closed-interval count of the claim. -/
theorem c6_counterexample :
    calculate_frequency [ev_c6] 100 7 = 1 ∧
    interval_count [ev_c6] 100 7 = 0 ∧
    calculate_frequency [ev_c6] 100 7 ≠ interval_count [ev_c6] 100 7 := by
  have h1 : calculate_frequency [ev_c6] 100 7 = 1 := by
    norm_num [calculate_frequency, recent_events, List.filter_cons, ev_c6]
  have h2 : interval_count [ev_c6] 100 7 = 0 := by
    norm_num [interval_count, List.filter_cons, ev_c6]
  refine ⟨h1, h2, ?_⟩
  rw [h1, h2]
  norm_num

/-- C6 amended: the frequency feature counts events with timestamp at or
after reference - window (closed lower endpoint, no upper cut at the
reference); under the documented snapshot precondition that every event is
at or before the reference time it equals the closed-interval count, and it
is monotone in the window size, so freq_7d ≤ freq_14d ≤ freq_30d. -/
theorem c6_frequency_window (ue : List Event) (reference_date w w' : ℚ)
    (hww : w ≤ w')
    (hsnap : ∀ e ∈ ue, e.event_time ≤ reference_date) :
    calculate_frequency ue reference_date w =
      interval_count ue reference_date w ∧
    calculate_frequency ue reference_date w ≤
      calculate_frequency ue reference_date w' := by
  constructor
  · unfold calculate_frequency recent_events interval_count
    congr 1
    apply List.filter_congr
    intro e he
    have ht := hsnap e he
    rw [decide_eq_decide]
    exact ⟨fun h => ⟨h, ht⟩, And.left⟩
  · unfold calculate_frequency recent_events
    rw [← List.countP_eq_length_filter, ← List.countP_eq_length_filter]
    apply List.countP_mono_left
    intro e he
    simp only [decide_eq_true_eq]
    intro h
    linarith

/-- An event 4 days before the reference time 100. -/
def ev_c6w : Event := ⟨96, "page_view", none⟩

/-- C6 witness: one event inside all windows, at reference 100 with windows
7 and 14. -/
theorem c6_witness :
    calculate_frequency [ev_c6w] 100 7 = interval_count [ev_c6w] 100 7 ∧
    calculate_frequency [ev_c6w] 100 7 ≤ calculate_frequency [ev_c6w] 100 14 :=
  c6_frequency_window [ev_c6w] 100 7 14 (by norm_num)
    (by
      intro e he
      simp only [List.mem_singleton] at he
      subst he
      norm_num [ev_c6w])

/-- C9: bundle detection is monotone in the category set: if the lower-cased
categories of one window are contained in those of another, a detected
bundle in the first forces a detected bundle in the second. -/
theorem c9_bundle_monotone (cfg : FeatureConfig) (ue ue' : List Event)
    (ref ref' w w' : ℚ)
    (hsub : lower_categories ue ref w ⊆ lower_categories ue' ref' w')
    (hdet : calculate_reform_bundle cfg ue ref w = 1) :
    calculate_reform_bundle cfg ue' ref' w' = 1 := by
  unfold calculate_reform_bundle bundle_from_categories at hdet ⊢
  by_cases hany : cfg.reform_bundles.any (fun bundle =>
      bundle.all fun c => decide (c ∈ lower_categories ue ref w)) = true
  · obtain ⟨b, hb, hall⟩ := List.any_eq_true.mp hany
    have hany' : cfg.reform_bundles.any (fun bundle =>
        bundle.all fun c => decide (c ∈ lower_categories ue' ref' w')) = true := by
      apply List.any_eq_true.mpr
      refine ⟨b, hb, ?_⟩
      rw [List.all_eq_true] at hall ⊢
      intro c hc
      have hmem := hall c hc
      simp only [decide_eq_true_eq] at hmem ⊢
      exact hsub hmem
    rw [if_pos hany']
  · rw [if_neg hany] at hdet
    exact absurd hdet (by norm_num)

/-- Events giving categories piso and rodape in the 14-day window. -/
def ue_c9 : List Event :=
  [⟨95, "view_item", some "piso"⟩, ⟨95, "view_item", some "rodape"⟩]

/-- The same events plus one more category, a superset of ue_c9. -/
def ue_c9' : List Event := ue_c9 ++ [⟨95, "view_item", some "tinta"⟩]

/-- C9 witness: piso+rodape is a detected bundle and stays detected after
adding the category tinta. -/
theorem c9_witness :
    lower_categories ue_c9 100 14 ⊆ lower_categories ue_c9' 100 14 ∧
    calculate_reform_bundle FEATURE_CONFIG ue_c9 100 14 = 1 ∧
    calculate_reform_bundle FEATURE_CONFIG ue_c9' 100 14 = 1 := by
  have h1 : recent_events ue_c9 100 14 = ue_c9 := by
    norm_num [recent_events, List.filter_cons, ue_c9]
  have h1' : recent_events ue_c9' 100 14 = ue_c9' := by
    norm_num [recent_events, List.filter_cons, ue_c9, ue_c9']
  have hsub : lower_categories ue_c9 100 14 ⊆ lower_categories ue_c9' 100 14 := by
    simp only [lower_categories, h1, h1']
    decide
  have hdet : calculate_reform_bundle FEATURE_CONFIG ue_c9 100 14 = 1 := by
    simp only [calculate_reform_bundle, lower_categories, h1]
    decide
  exact ⟨hsub, hdet,
    c9_bundle_monotone FEATURE_CONFIG ue_c9 ue_c9' 100 100 14 14 hsub hdet⟩

/-- Cart add at day 95 and checkout 23 hours later, reference 100. -/
def cart_23h : List Event :=
  [⟨95, "add_to_cart", none⟩, ⟨95 + 23/24, "begin_checkout", none⟩]

/-- Cart add at day 95 and checkout 25 hours later, reference 100. -/
def cart_25h : List Event :=
  [⟨95, "add_to_cart", none⟩, ⟨95 + 25/24, "begin_checkout", none⟩]

/-- Two cart adds (day 95 and 95.5) and a single checkout at 95.7 covering
both. -/
def cart_shared : List Event :=
  [⟨95, "add_to_cart", none⟩, ⟨191/2, "add_to_cart", none⟩,
   ⟨957/10, "begin_checkout", none⟩]

/-- C2: the abandonment count increments for exactly the in-window
add_to_cart events having no in-window begin_checkout in the closed
interval [add_time, add_time + cart_abandon_hours]; a checkout 23 hours
after the add (default 24h window) prevents counting, one 25 hours after
does not, and a single checkout covers several preceding cart adds since
checkouts are not consumed. -/
theorem c2_cart_abandon_pairing :
    (∀ (cfg : FeatureConfig) (ue : List Event) (reference_date w : ℚ),
      calculate_cart_abandon cfg ue reference_date w =
        ((recent_events ue reference_date w).filter fun e =>
          decide (e.event_name = "add_to_cart")).countP fun a =>
          decide (¬ ∃ e ∈ recent_events ue reference_date w,
            e.event_name = "begin_checkout" ∧
            a.event_time ≤ e.event_time ∧
            e.event_time ≤ a.event_time + cfg.cart_abandon_hours / 24)) ∧
    calculate_cart_abandon FEATURE_CONFIG cart_23h 100 7 = 0 ∧
    calculate_cart_abandon FEATURE_CONFIG cart_25h 100 7 = 1 ∧
    calculate_cart_abandon FEATURE_CONFIG cart_shared 100 7 = 0 := by
  refine ⟨?_, ?_, ?_, ?_⟩
  · intro cfg ue reference_date w
    simp only [calculate_cart_abandon]
    apply List.countP_congr
    intro a ha
    simp only [decide_eq_true_eq, List.length_eq_zero, List.filter_eq_nil_iff,
      decide_eq_true_eq]
    constructor
    · rintro h ⟨e, he, hP⟩
      exact h e he hP
    · intro h e he hP
      exact h ⟨e, he, hP⟩
  · have hr : recent_events cart_23h 100 7 = cart_23h := by
      norm_num [recent_events, List.filter_cons, cart_23h]
    have hs : ("add_to_cart":String) ≠ "begin_checkout" := by decide
    have hs' : ("begin_checkout":String) ≠ "add_to_cart" := by decide
    simp only [calculate_cart_abandon, hr]
    norm_num [cart_23h, FEATURE_CONFIG, List.filter_cons, List.countP_cons, hs, hs']
  · have hr : recent_events cart_25h 100 7 = cart_25h := by
      norm_num [recent_events, List.filter_cons, cart_25h]
    have hs : ("add_to_cart":String) ≠ "begin_checkout" := by decide
    have hs' : ("begin_checkout":String) ≠ "add_to_cart" := by decide
    simp only [calculate_cart_abandon, hr]
    norm_num [cart_25h, FEATURE_CONFIG, List.filter_cons, List.countP_cons, hs, hs']
  · have hr : recent_events cart_shared 100 7 = cart_shared := by
      norm_num [recent_events, List.filter_cons, cart_shared]
    have hs : ("add_to_cart":String) ≠ "begin_checkout" := by decide
    have hs' : ("begin_checkout":String) ≠ "add_to_cart" := by decide
    simp only [calculate_cart_abandon, hr]
    norm_num [cart_shared, FEATURE_CONFIG, List.filter_cons, List.countP_cons, hs, hs']

/-- Descending order on value with ties broken by the original position:
the ordering described by the spec for the top drivers. -/
def lex_desc (a b : ℕ × String × ℚ) : Prop :=
  b.2.2 < a.2.2 ∨ (a.2.2 = b.2.2 ∧ a.1 ≤ b.1)

instance : DecidableRel lex_desc := fun a b =>
  inferInstanceAs (Decidable (b.2.2 < a.2.2 ∨ (a.2.2 = b.2.2 ∧ a.1 ≤ b.1)))

instance : IsTotal (ℕ × String × ℚ) lex_desc where
  total a b := by
    rcases lt_trichotomy a.2.2 b.2.2 with h | h | h
    · exact Or.inr (Or.inl h)
    · rcases Nat.le_total a.1 b.1 with hn | hn
      · exact Or.inl (Or.inr ⟨h, hn⟩)
      · exact Or.inr (Or.inr ⟨h.symm, hn⟩)
    · exact Or.inl (Or.inl h)

instance : IsTrans (ℕ × String × ℚ) lex_desc where
  trans a b c hab hbc := by
    rcases hab with h1 | ⟨h1, h1n⟩ <;> rcases hbc with h2 | ⟨h2, h2n⟩
    · exact Or.inl (lt_trans h2 h1)
    · exact Or.inl (h2 ▸ h1)
    · exact Or.inl (by rw [h1]; exact h2)
    · exact Or.inr ⟨h1.trans h2, le_trans h1n h2n⟩

/-- Attach original positions to a component list, starting at n. -/
def enumIx : ℕ → List (String × ℚ) → List (ℕ × String × ℚ)
  | _, [] => []
  | n, x :: xs => (n, x) :: enumIx (n + 1) xs

/-- Top drivers following the words of the spec: order the components by
weighted contribution descending with ties broken by the original component
order, take the first three, report the contributions rounded to 2
decimals. -/
def spec_top_drivers (l : List (String × ℚ)) : List (String × ℚ) :=
  ((List.insertionSort lex_desc (enumIx 0 l)).take 3).map fun p =>
    (p.2.1, round2 p.2.2)

lemma mem_enumIx_le {p : ℕ × String × ℚ} :
    ∀ {n : ℕ} {l : List (String × ℚ)}, p ∈ enumIx n l → n ≤ p.1 := by
  intro n l
  induction l generalizing n with
  | nil =>
    intro h
    simp [enumIx] at h
  | cons x xs ih =>
    intro h
    simp only [enumIx, List.mem_cons] at h
    rcases h with rfl | h'
    · exact le_refl _
    · exact le_trans (Nat.le_succ n) (ih h')

lemma map_snd_orderedInsert (x : ℕ × String × ℚ) (s : List (ℕ × String × ℚ))
    (hx : ∀ p ∈ s, lex_desc x p ↔ value_desc x.2 p.2) :
    (s.orderedInsert lex_desc x).map Prod.snd =
      (s.map Prod.snd).orderedInsert value_desc x.2 := by
  induction s with
  | nil => rfl
  | cons b t ih =>
    simp only [List.orderedInsert, List.map]
    by_cases h : lex_desc x b
    · rw [if_pos h, if_pos ((hx b (List.mem_cons_self b t)).mp h)]
      simp
    · rw [if_neg h, if_neg (fun hv => h ((hx b (List.mem_cons_self b t)).mpr hv))]
      simp only [List.map, List.cons.injEq, true_and]
      exact ih fun p hp => hx p (List.mem_cons_of_mem b hp)

lemma map_snd_insertionSort_enumIx (l : List (String × ℚ)) :
    ∀ n, (List.insertionSort lex_desc (enumIx n l)).map Prod.snd =
      List.insertionSort value_desc l := by
  induction l with
  | nil => intro n; rfl
  | cons x xs ih =>
    intro n
    simp only [enumIx, List.insertionSort]
    rw [map_snd_orderedInsert, ih (n + 1)]
    intro p hp
    have hle : n + 1 ≤ p.1 :=
      mem_enumIx_le ((List.mem_insertionSort lex_desc).mp hp)
    unfold lex_desc value_desc
    constructor
    · rintro (h | ⟨h, _⟩)
      · exact le_of_lt h
      · exact le_of_eq h.symm
    · intro h
      rcases lt_or_eq_of_le h with h' | h'
      · exact Or.inl h'
      · exact Or.inr ⟨h'.symm, by omega⟩

lemma get_top_drivers_eq_spec (l : List (String × ℚ)) :
    get_top_drivers l = spec_top_drivers l := by
  unfold get_top_drivers spec_top_drivers
  rw [← map_snd_insertionSort_enumIx l 0, ← List.map_take, List.map_map]
  rfl

/-- C7: the reported top drivers are exactly the first three of the
components ordered by weighted contribution descending, ties broken by the
original component order, and the reported values are the weighted
contributions rounded to 2 decimals; the ordering used is a sort (sorted
output, permutation of the five components). -/
theorem c7_top_drivers (cfg : ScoringConfig) (f : Features) :
    get_top_drivers (score_components cfg f) =
      spec_top_drivers (score_components cfg f) ∧
    List.Sorted lex_desc
      (List.insertionSort lex_desc (enumIx 0 (score_components cfg f))) ∧
    (List.insertionSort lex_desc (enumIx 0 (score_components cfg f))).Perm
      (enumIx 0 (score_components cfg f)) :=
  ⟨get_top_drivers_eq_spec _, List.sorted_insertionSort lex_desc _,
   List.perm_insertionSort lex_desc _⟩

/-- C10: the Scorer always builds exactly the five named components, so the
top-driver mapping always has exactly 3 entries with pairwise distinct
names (never fewer than 3). -/
theorem c10_exactly_three_drivers (cfg : ScoringConfig) (f : Features) :
    (get_top_drivers (score_components cfg f)).length = 3 ∧
    (score_components cfg f).map Prod.fst =
      ["recency", "high_intent", "frequency", "diversity", "bundles_abandon"] ∧
    ((get_top_drivers (score_components cfg f)).map Prod.fst).Nodup := by
  refine ⟨?_, rfl, ?_⟩
  · unfold get_top_drivers
    rw [List.length_map, List.length_take, List.length_insertionSort]
    rfl
  · unfold get_top_drivers
    rw [List.map_map]
    show (List.map Prod.fst
      ((List.insertionSort value_desc (score_components cfg f)).take 3)).Nodup
    rw [List.map_take]
    have hperm :
        (List.insertionSort value_desc (score_components cfg f)).Perm
          (score_components cfg f) := List.perm_insertionSort _ _
    have h0 : ((score_components cfg f).map Prod.fst).Nodup := by
      rw [show (score_components cfg f).map Prod.fst =
        ["recency", "high_intent", "frequency", "diversity", "bundles_abandon"]
        from rfl]
      decide
    exact List.Sublist.nodup (List.take_sublist 3 _)
      (((hperm.map Prod.fst).symm).nodup h0)
